import Mathlib

/-
Verification development for the sentiment-aura frontend.

Shallow embedding of the audio streaming frontend:
- `DeepgramService` (src/frontend/src/services/deepgramService.ts, backend-relay
  variant, lines 151-322): WebSocket relay client with reconnect policy.
- `useDeepgram` (src/frontend/src/hooks/useDeepgram.ts): transcript aggregation.
- `useAudioCapture` (src/frontend/src/hooks/useAudioCapture.ts): audio level
  smoothing, fade out, start/stop recording.
- `AudioPulse` (src/frontend/src/components/AudioPulse.tsx): session toggle.

JavaScript numbers used by the level/fade logic are modelled as rationals;
WebSocket ready states, the in-flight connect promise, and timers are made
explicit state.
-/

/-- WebSocket readyState values (CONNECTING, OPEN, CLOSING, CLOSED). -/
inductive ReadyState
  | CONNECTING
  | OPEN
  | CLOSING
  | CLOSED
deriving DecidableEq, Repr

/-- Settlement state of the promise returned by `connect()`: a JS promise is
settled at most once, the first resolve or reject wins. -/
inductive PromiseState
  | pending
  | resolved
  | rejected
deriving DecidableEq, Repr

/-- `resolve()` on a JS promise: only a pending promise becomes resolved. -/
def resolveP : PromiseState → PromiseState
  | PromiseState.pending => PromiseState.resolved
  | p => p

/-- `reject()` on a JS promise: only a pending promise becomes rejected. -/
def rejectP : PromiseState → PromiseState
  | PromiseState.pending => PromiseState.rejected
  | p => p

/-- A parsed inbound relay message, the tagged union on the `type` field of
the JSON the backend sends (deepgramService.ts onmessage switch). `unknown`
covers every tag outside the five handled cases. -/
inductive RelayMsg
  | connected
  | transcriptMsg (text : String) (isFinal : Bool)
  | speechstarted
  | speechended
  | errorMsg (message : String)
  | unknown (tag : String)
deriving DecidableEq, Repr

/-- Mutable fields of the `DeepgramService` class (relay variant):
`ws` (null or a socket with its readyState), `isConnected`,
`reconnectAttempts`, plus the settlement state of the in-flight `connect()`
promise. -/
structure ClientState where
  ws : Option ReadyState
  isConnected : Bool
  reconnectAttempts : Nat
  promise : PromiseState
deriving DecidableEq, Repr

/-- `maxReconnectAttempts` field initialiser (relay variant). -/
def maxReconnectAttempts : Nat := 3

/-- `reconnectDelay` field initialiser, the base delay in milliseconds. -/
def reconnectDelay : Nat := 1000

/-- Observable side effects of one handler invocation: events dispatched via
`emit`, number of `ws.send` calls, a reconnect scheduled via `setTimeout`
(with its delay), and a `ws.close` call (with its close code). -/
structure Effects where
  emitted : List String
  sends : Nat
  scheduledReconnect : Option Nat
  closeCode : Option Nat
deriving DecidableEq, Repr

/-- The empty effect record. -/
def noFx : Effects :=
  { emitted := [], sends := 0, scheduledReconnect := none, closeCode := none }

/-- `ws.onopen`: the relay variant only logs; it does not resolve the promise
or touch any field. -/
def onopenHandler (s : ClientState) : ClientState × Effects := (s, noFx)

/-- `ws.onmessage`: `JSON.parse` failure (modelled as `none`) is caught,
logged and skipped; otherwise dispatch on `data.type`. -/
def onmessageHandler (s : ClientState) (m : Option RelayMsg) :
    ClientState × Effects :=
  match m with
  | none => (s, noFx)
  | some RelayMsg.connected =>
      ({ s with isConnected := true, reconnectAttempts := 0,
                promise := resolveP s.promise },
       { noFx with emitted := ["connected"] })
  | some (RelayMsg.transcriptMsg _ _) =>
      (s, { noFx with emitted := ["transcript"] })
  | some RelayMsg.speechstarted =>
      (s, { noFx with emitted := ["speechStarted"] })
  | some RelayMsg.speechended =>
      (s, { noFx with emitted := ["speechEnded"] })
  | some (RelayMsg.errorMsg _) =>
      ({ s with promise := rejectP s.promise },
       { noFx with emitted := ["error"] })
  | some (RelayMsg.unknown _) => (s, noFx)

/-- `ws.onerror`: sets `isConnected = false`, emits `error`, rejects the
in-flight connect promise. -/
def onerrorHandler (s : ClientState) : ClientState × Effects :=
  ({ s with isConnected := false, promise := rejectP s.promise },
   { noFx with emitted := ["error"] })

/-- `attemptReconnect()`: increments `reconnectAttempts` first, then schedules
`connect()` after `reconnectDelay * reconnectAttempts` (the incremented
value). The `setTimeout` handle is not stored anywhere. -/
def attemptReconnect (s : ClientState) : ClientState × Effects :=
  ({ s with reconnectAttempts := s.reconnectAttempts + 1 },
   { noFx with
       scheduledReconnect := some (reconnectDelay * (s.reconnectAttempts + 1)) })

/-- `ws.onclose`: sets `isConnected = false`, emits `disconnected`; then
close code 1006 only logs diagnostics, while any other code different from
1000 triggers `attemptReconnect()` if attempts remain. -/
def oncloseHandler (s : ClientState) (code : Nat) : ClientState × Effects :=
  let s1 := { s with isConnected := false }
  if code = 1006 then
    (s1, { noFx with emitted := ["disconnected"] })
  else if code ≠ 1000 ∧ s1.reconnectAttempts < maxReconnectAttempts then
    let r := attemptReconnect s1
    (r.1, { r.2 with emitted := ["disconnected"] })
  else
    (s1, { noFx with emitted := ["disconnected"] })

/-- `sendAudio(audioData)`: forwards to `ws.send` only when the socket exists
and its readyState is OPEN; otherwise logs a warning and returns normally
(the function is total: no branch throws). -/
def sendAudio (s : ClientState) : ClientState × Effects :=
  match s.ws with
  | some rs =>
      if rs = ReadyState.OPEN then (s, { noFx with sends := 1 })
      else (s, noFx)
  | none => (s, noFx)

/-- Total `ws.send` invocations over `n` consecutive `sendAudio` calls. -/
def sendCount (s : ClientState) : Nat → Nat
  | 0 => 0
  | n + 1 => (sendAudio s).2.sends + sendCount (sendAudio s).1 n

/-- `disconnect()`: when a socket exists, sets `isConnected = false`, calls
`ws.close(1000, ...)` and nulls the socket. It touches nothing else; in
particular it holds no timer handle to cancel. -/
def disconnect (s : ClientState) : ClientState × Effects :=
  match s.ws with
  | some _ =>
      ({ s with isConnected := false, ws := none },
       { noFx with closeCode := some 1000 })
  | none => (s, noFx)

/-- The socket-level events a single connect session can receive. -/
inductive WsEvent
  | onopen
  | onmessage (m : Option RelayMsg)
  | onerror
  | onclose (code : Nat)
deriving DecidableEq, Repr

/-- Dispatch one socket event to its handler. -/
def wsStep (s : ClientState) (e : WsEvent) : ClientState × Effects :=
  match e with
  | WsEvent.onopen => onopenHandler s
  | WsEvent.onmessage m => onmessageHandler s m
  | WsEvent.onerror => onerrorHandler s
  | WsEvent.onclose code => oncloseHandler s code

/-- Entering `connect()`: a fresh WebSocket is created (readyState
CONNECTING) and a fresh pending promise is returned. -/
def connectCall (s : ClientState) : ClientState :=
  { s with ws := some ReadyState.CONNECTING, promise := PromiseState.pending }

/-- Whole-system state for executions that interleave close events, explicit
`disconnect()` calls and reconnect timers: `pendingTimers` counts scheduled
reconnect `setTimeout` callbacks that have not yet fired, and
`reenteredConnecting` records whether `connect()` ran again. -/
structure SysState where
  client : ClientState
  pendingTimers : Nat
  reenteredConnecting : Bool
deriving DecidableEq, Repr

/-- Actions of the execution model: a close event arriving, the user calling
`disconnect()`, and a scheduled reconnect timer firing (whose callback calls
`this.connect()` unconditionally). -/
inductive SysEvent
  | closeEvt (code : Nat)
  | disconnectCall
  | timerFires
deriving DecidableEq, Repr

/-- One execution step. A firing timer consumes one pending timer and calls
`connect()`; `disconnect()` leaves `pendingTimers` untouched because the
source never stores the `setTimeout` handle. -/
def sysStep (s : SysState) (e : SysEvent) : SysState :=
  match e with
  | SysEvent.closeEvt code =>
      let r := oncloseHandler s.client code
      { s with client := r.1,
               pendingTimers := s.pendingTimers +
                 (match r.2.scheduledReconnect with
                  | some _ => 1
                  | none => 0) }
  | SysEvent.disconnectCall =>
      { s with client := (disconnect s.client).1 }
  | SysEvent.timerFires =>
      match s.pendingTimers with
      | 0 => s
      | n + 1 =>
          { client := connectCall s.client, pendingTimers := n,
            reenteredConnecting := true }

/-- Run a list of system events in order. -/
def sysRun (s : SysState) : List SysEvent → SysState
  | [] => s
  | e :: es => sysRun (sysStep s e) es

/-- A `transcript` event payload as delivered to the hook listeners (the
`confidence` and `timestamp` fields play no role in the handlers). -/
structure TranscriptResult where
  transcript : String
  isFinal : Bool
deriving DecidableEq, Repr

/-- JavaScript whitespace test used by `String.prototype.trim` restricted to
the characters that can occur here. -/
def isWsChar (c : Char) : Bool :=
  c == ' ' || c == '\t' || c == '\n' || c == '\r'

/-- Model of JavaScript `String.prototype.trim`: strip whitespace from both
ends. -/
def jsTrim (s : String) : String :=
  String.mk (((s.data.dropWhile isWsChar).reverse.dropWhile isWsChar).reverse)

/-- State of the `useDeepgram` hook: connection flag, latest finalized
sentence (`transcript`), the single interim slot, the ordered final
transcript log, the `currentSentence` ref, and the error message. -/
structure HookState where
  isConnected : Bool
  transcript : String
  interimTranscript : String
  fullTranscript : List String
  currentSentence : String
  errorText : Option String
deriving DecidableEq, Repr

/-- `handleTranscript` (useDeepgram.ts lines 42-56): a final event trims the
text and, when the trimmed text is nonempty (JS truthiness of the string),
replaces `transcript`, appends to `fullTranscript`, and clears the interim
slot and current sentence; an empty-trim final event does nothing. An
interim event overwrites the interim slot and current sentence. The same
reducer shape appears in the AudioPulse transcript listener
(AudioPulse.tsx lines 55-80). -/
def handleTranscript (s : HookState) (r : TranscriptResult) : HookState :=
  if r.isFinal then
    let finalText := jsTrim r.transcript
    if finalText ≠ "" then
      { s with transcript := finalText,
               fullTranscript := s.fullTranscript ++ [finalText],
               interimTranscript := "",
               currentSentence := "" }
    else s
  else
    { s with interimTranscript := r.transcript,
             currentSentence := r.transcript }

/-- The events the service dispatches to the hook's listeners. -/
inductive ServiceEvent
  | connectedEv
  | transcriptEv (r : TranscriptResult)
  | speechStartedEv
  | speechEndedEv
  | errorEv
  | disconnectedEv
deriving DecidableEq, Repr

/-- The hook's listener reactions (useDeepgram.ts handleConnected,
handleTranscript, handleSpeechStarted, handleSpeechEnded, handleError,
handleDisconnected). -/
def hookStep (s : HookState) (e : ServiceEvent) : HookState :=
  match e with
  | ServiceEvent.connectedEv => { s with isConnected := true, errorText := none }
  | ServiceEvent.transcriptEv r => handleTranscript s r
  | ServiceEvent.speechStartedEv => s
  | ServiceEvent.speechEndedEv => s
  | ServiceEvent.errorEv =>
      { s with errorText := some "Transcription service error" }
  | ServiceEvent.disconnectedEv => { s with isConnected := false }

/-- Run a list of service events through the hook in order. -/
def hookRun (s : HookState) : List ServiceEvent → HookState
  | [] => s
  | e :: es => hookRun (hookStep s e) es

/-- The hook's initial state. -/
def initHookState : HookState :=
  { isConnected := false, transcript := "", interimTranscript := "",
    fullTranscript := [], currentSentence := "", errorText := none }

/-- The `audioState` record of `useAudioCapture`. Levels are rationals. -/
structure AudioState where
  isRecording : Bool
  isInitialized : Bool
  audioLevel : ℚ
  errorText : Option String
deriving DecidableEq, Repr

/-- `monitorAudioLevel` sample normalisation: `Math.min(rms / 128, 1)` where
`rms` is the (nonnegative) root-mean-square of a frequency-band subset. -/
def normalizedLevel (rms : ℚ) : ℚ := min (rms / 128) 1

/-- One `monitorAudioLevel` tick:
`audioLevel = audioLevel * 0.7 + normalizedLevel * 0.3`. -/
def levelTick (level rms : ℚ) : ℚ :=
  level * (7 / 10) + normalizedLevel rms * (3 / 10)

/-- One iteration of the `fadeOut` loop in `stopRecording`
(useAudioCapture.ts lines 291-305): multiply the fade level by 0.9; while it
stays above 0.01 write it back and reschedule, otherwise set
`audioLevel = 0` and `isRecording = false` in the same update. -/
def fadeOutStep (s : AudioState) : AudioState :=
  let fadeLevel := s.audioLevel * (9 / 10)
  if 1 / 100 < fadeLevel then { s with audioLevel := fadeLevel }
  else { s with isRecording := false, audioLevel := 0 }

/-- Iterate `fadeOutStep` `n` times. -/
def fadeIter : Nat → AudioState → AudioState
  | 0, s => s
  | n + 1, s => fadeIter n (fadeOutStep s)

/-- Resource-level state of `useAudioCapture`: the `audioState` record, the
`mediaStreamRef` (is a stream held?), and a count of `getUserMedia`
allocations performed so far. -/
structure CaptureState where
  audio : AudioState
  streamPresent : Bool
  allocations : Nat
deriving DecidableEq, Repr

/-- `startRecording` (useAudioCapture.ts lines 248-279), success path: no-op
if already recording; otherwise lazily initialise (allocate a stream only
when none is held), then set `isRecording = true` and start the level
monitor. -/
def startRecording (s : CaptureState) : CaptureState :=
  if s.audio.isRecording then s
  else
    let s1 :=
      if s.streamPresent then s
      else { s with streamPresent := true, allocations := s.allocations + 1,
                    audio := { s.audio with isInitialized := true } }
    { s1 with audio := { s1.audio with isRecording := true, errorText := none } }

/-- `stopRecording` (useAudioCapture.ts lines 281-308), net effect once the
`fadeOut` loop has run to completion (its termination at
`audioLevel = 0, isRecording = false` is proved below from `fadeIter`):
no-op if not recording; otherwise stop streaming and end with the level
snapped to 0 and `isRecording = false`. The media stream is kept. -/
def stopRecording (s : CaptureState) : CaptureState :=
  if s.audio.isRecording then
    { s with audio := { s.audio with isRecording := false, audioLevel := 0 } }
  else s

/-- The two public toggle calls of the capture hook. -/
inductive CaptureCall
  | start
  | stop
deriving DecidableEq, Repr

/-- Dispatch one capture call. -/
def captureStep (s : CaptureState) : CaptureCall → CaptureState
  | CaptureCall.start => startRecording s
  | CaptureCall.stop => stopRecording s

/-- Run a list of capture calls in order. -/
def captureRun (s : CaptureState) : List CaptureCall → CaptureState
  | [] => s
  | c :: cs => captureRun (captureStep s c) cs

/-- The hook's initial state: not recording, nothing allocated. -/
def initCaptureState : CaptureState :=
  { audio := { isRecording := false, isInitialized := false, audioLevel := 0,
               errorText := none },
    streamPresent := false, allocations := 0 }

/-- Whether the most recent call in the list is `start` (defaulting to the
initial recording flag for the empty list). -/
def lastIsStart (init : Bool) : List CaptureCall → Bool
  | [] => init
  | CaptureCall.start :: cs => lastIsStart true cs
  | CaptureCall.stop :: cs => lastIsStart false cs

/-- The `connectionStatus` values of the AudioPulse component. -/
inductive ConnStatus
  | idle
  | connecting
  | connected
  | errorS
deriving DecidableEq, Repr

/-- AudioPulse component state relevant to toggling: connection status,
recording flag, and whether the streaming callback has been wired to the
relay send path. -/
structure PulseState where
  connectionStatus : ConnStatus
  isRecording : Bool
  streamingStarted : Bool
deriving DecidableEq, Repr

/-- Ordered externally visible actions of one toggle invocation. -/
inductive PulseAction
  | actConnect
  | actStartRecording
  | actStartStreaming
  | actStopRecording
  | actStopStreaming
  | actDisconnect
deriving DecidableEq, Repr

/-- `initializeDeepgram` (AudioPulse.tsx lines 40-103), parameterised by
whether `connect()` resolves: sets status `connecting`, then either the
`connected` listener fires and the call returns `true` with status
`connected`, or the catch block sets status `error` and returns `false`. -/
def initDeepgram (s : PulseState) (connectOk : Bool) : PulseState × Bool :=
  if connectOk then ({ s with connectionStatus := ConnStatus.connected }, true)
  else ({ s with connectionStatus := ConnStatus.errorS }, false)

/-- `handleToggleRecording` (AudioPulse.tsx lines 113-141): when recording,
stop capture, stop streaming, disconnect. When not recording: if the status
is not `connected`, first await `initializeDeepgram`, returning early on
failure; only after a successful connect start recording and wire the
streaming callback to the relay send path. -/
def handleToggleRecording (s : PulseState) (connectOk : Bool) :
    PulseState × List PulseAction :=
  if s.isRecording then
    ({ s with isRecording := false, streamingStarted := false,
              connectionStatus := ConnStatus.idle },
     [PulseAction.actStopRecording, PulseAction.actStopStreaming,
      PulseAction.actDisconnect])
  else if s.connectionStatus ≠ ConnStatus.connected then
    let r := initDeepgram s connectOk
    if r.2 then
      ({ r.1 with isRecording := true, streamingStarted := true },
       [PulseAction.actConnect, PulseAction.actStartRecording,
        PulseAction.actStartStreaming])
    else (r.1, [PulseAction.actConnect])
  else
    ({ s with isRecording := true, streamingStarted := true },
     [PulseAction.actStartRecording, PulseAction.actStartStreaming])

/-- A concrete client state: open socket, no reconnect attempts so far. -/
def csA : ClientState :=
  { ws := some ReadyState.OPEN, isConnected := true, reconnectAttempts := 0,
    promise := PromiseState.resolved }

/-- A concrete client state whose attempt counter has reached the maximum. -/
def csB : ClientState :=
  { ws := none, isConnected := false, reconnectAttempts := 3,
    promise := PromiseState.rejected }

/-- C1 counterexample: a close event with code 1006 while the attempt counter
(0) is strictly below the maximum (3) schedules no reconnect at all — the
1006 branch of the onclose handler only logs — contradicting the claim that
it schedules one with delay baseDelayMs * (attempt+1). -/
theorem claim1_counterexample :
    csA.reconnectAttempts < maxReconnectAttempts ∧
    (oncloseHandler csA 1006).2.scheduledReconnect = none ∧
    ¬ (oncloseHandler csA 1006).2.scheduledReconnect =
        some (reconnectDelay * (csA.reconnectAttempts + 1)) := by
  decide

/-- C1 (amended): a close event with code 1006 never schedules a reconnect,
whatever the attempt counter; for any close code other than 1000 and 1006
with the counter strictly below the maximum, a reconnect is scheduled with
delay baseDelayMs * (attempt+1), the counter having been incremented first;
when the counter has reached the maximum no reconnect is scheduled; in every
case the handler sets isConnected to false and emits only the `disconnected`
event (no `Error` state exists in the handler). -/
theorem claim1_close_code_policy (s : ClientState) (code : Nat) :
    (oncloseHandler s 1006).2.scheduledReconnect = none ∧
    (code ≠ 1000 → code ≠ 1006 → s.reconnectAttempts < maxReconnectAttempts →
      (oncloseHandler s code).1.reconnectAttempts = s.reconnectAttempts + 1 ∧
      (oncloseHandler s code).2.scheduledReconnect =
        some (reconnectDelay * (s.reconnectAttempts + 1))) ∧
    (maxReconnectAttempts ≤ s.reconnectAttempts →
      (oncloseHandler s code).2.scheduledReconnect = none) ∧
    (oncloseHandler s code).1.isConnected = false ∧
    (oncloseHandler s code).2.emitted = ["disconnected"] := by
  refine ⟨by simp [oncloseHandler, noFx], ?_, ?_, ?_, ?_⟩
  · intro h1 h2 h3
    simp [oncloseHandler, attemptReconnect, h1, h2, h3, noFx]
  · intro h
    have h3 : ¬ s.reconnectAttempts < maxReconnectAttempts := by omega
    simp [oncloseHandler, attemptReconnect, h3, noFx]
  · simp only [oncloseHandler, attemptReconnect]
    split_ifs <;> simp
  · simp only [oncloseHandler, attemptReconnect]
    split_ifs <;> simp [noFx]

/-- Witness for the amended C1 at concrete inputs: close code 1005 with the
counter at 0 schedules a 1000 ms reconnect; with the counter at the maximum
it schedules none. -/
theorem claim1_witness :
    ((1005 : Nat) ≠ 1000 ∧ (1005 : Nat) ≠ 1006 ∧
      csA.reconnectAttempts < maxReconnectAttempts ∧
      (oncloseHandler csA 1005).2.scheduledReconnect = some 1000) ∧
    (maxReconnectAttempts ≤ csB.reconnectAttempts ∧
      (oncloseHandler csB 1005).2.scheduledReconnect = none) := by
  constructor
  · refine ⟨by decide, by decide, by decide, ?_⟩
    have h := ((claim1_close_code_policy csA 1005).2.1
      (by decide) (by decide) (by decide)).2
    simpa [csA, reconnectDelay] using h
  · exact ⟨by decide, (claim1_close_code_policy csB 1005).2.2.1 (by decide)⟩

/-- A concrete whole-system state built over `csA` with no pending timers. -/
def sys0 : SysState :=
  { client := csA, pendingTimers := 0, reenteredConnecting := false }

/-- C2 counterexample: after an abnormal close (code 1005) schedules a
reconnect, calling `disconnect()` leaves the timer pending (nothing is
cancelled), and when the timer later fires the client calls `connect()` and
re-enters Connecting — contradicting the claim that no execution in which
`disconnect()` precedes the timer firing ever re-enters Connecting. -/
theorem claim2_counterexample :
    (sysRun sys0 [SysEvent.closeEvt 1005]).pendingTimers = 1 ∧
    (sysRun sys0 [SysEvent.closeEvt 1005, SysEvent.disconnectCall]).pendingTimers
      = 1 ∧
    (sysRun sys0 [SysEvent.closeEvt 1005, SysEvent.disconnectCall,
        SysEvent.timerFires]).reenteredConnecting = true ∧
    (sysRun sys0 [SysEvent.closeEvt 1005, SysEvent.disconnectCall,
        SysEvent.timerFires]).client.ws = some ReadyState.CONNECTING := by
  decide

/-- C2 (amended): `disconnect()` closes the socket with the normal-closure
code 1000, nulls it and clears `isConnected`, and a close event with code
1000 schedules no reconnect; but `disconnect()` does not cancel a pending
scheduled reconnect — it leaves `pendingTimers` unchanged — and any pending
timer that later fires calls `connect()` and re-enters Connecting. -/
theorem claim2_disconnect_no_cancel (s : SysState) (c : ClientState) :
    (c.ws ≠ none →
      (disconnect c).2.closeCode = some 1000 ∧
      (disconnect c).1.ws = none ∧
      (disconnect c).1.isConnected = false) ∧
    (oncloseHandler c 1000).2.scheduledReconnect = none ∧
    (sysStep s SysEvent.disconnectCall).pendingTimers = s.pendingTimers ∧
    (0 < s.pendingTimers →
      (sysStep s SysEvent.timerFires).reenteredConnecting = true ∧
      (sysStep s SysEvent.timerFires).client.ws = some ReadyState.CONNECTING ∧
      (sysStep s SysEvent.timerFires).client.promise = PromiseState.pending) := by
  refine ⟨?_, ?_, rfl, ?_⟩
  · intro h
    cases hws : c.ws with
    | none => exact absurd hws h
    | some rs => simp [disconnect, hws, noFx]
  · simp [oncloseHandler, noFx]
  · intro h
    cases hp : s.pendingTimers with
    | zero => omega
    | succ n => simp [sysStep, hp, connectCall]

/-- Witness for the amended C2 at concrete inputs: a client with an open
socket, and a system state with one pending reconnect timer. -/
theorem claim2_witness :
    (csA.ws ≠ none ∧ (disconnect csA).2.closeCode = some 1000 ∧
      (disconnect csA).1.ws = none) ∧
    (0 < (sysRun sys0 [SysEvent.closeEvt 1005]).pendingTimers ∧
      (sysStep (sysRun sys0 [SysEvent.closeEvt 1005])
        SysEvent.timerFires).reenteredConnecting = true) := by
  constructor
  · have h := (claim2_disconnect_no_cancel sys0 csA).1 (by decide)
    exact ⟨by decide, h.1, h.2.1⟩
  · have h := ((claim2_disconnect_no_cancel
      (sysRun sys0 [SysEvent.closeEvt 1005]) csA).2.2.2 (by decide)).1
    exact ⟨by decide, h⟩

/-- `sendAudio` never mutates the client state. -/
theorem sendAudio_state_id (s : ClientState) : (sendAudio s).1 = s := by
  rcases hws : s.ws with _ | rs
  · simp [sendAudio, hws]
  · by_cases hrs : rs = ReadyState.OPEN <;> simp [sendAudio, hws, hrs]

/-- C3: while the socket is absent or not OPEN, any number N of `sendAudio`
calls performs zero transport sends; a single call performs a transport send
exactly when the socket exists and is OPEN; and no call changes the client
state (the function is total — no branch throws). -/
theorem claim3_sendAudio_gated (s : ClientState) (n : Nat) :
    (s.ws ≠ some ReadyState.OPEN → sendCount s n = 0) ∧
    ((sendAudio s).2.sends = 1 ↔ s.ws = some ReadyState.OPEN) ∧
    (sendAudio s).1 = s := by
  refine ⟨?_, ?_, sendAudio_state_id s⟩
  · intro h
    induction n with
    | zero => rfl
    | succ n ih =>
        have hz : (sendAudio s).2.sends = 0 := by
          rcases hws : s.ws with _ | rs
          · simp [sendAudio, hws, noFx]
          · have hrs : rs ≠ ReadyState.OPEN := by
              intro hrs; exact h (by rw [hws, hrs])
            simp [sendAudio, hws, hrs, noFx]
        show (sendAudio s).2.sends + sendCount (sendAudio s).1 n = 0
        rw [hz, sendAudio_state_id s, ih]
  · rcases hws : s.ws with _ | rs
    · simp [sendAudio, hws, noFx]
    · by_cases hrs : rs = ReadyState.OPEN <;>
        simp [sendAudio, hws, hrs, noFx]

/-- Witness for C3 at concrete inputs: with a closed socket, 5 calls send
nothing; with an open socket, one call sends once. -/
theorem claim3_witness :
    (csB.ws ≠ some ReadyState.OPEN ∧ sendCount csB 5 = 0) ∧
    (csA.ws = some ReadyState.OPEN ∧ (sendAudio csA).2.sends = 1) := by
  constructor
  · exact ⟨by decide, (claim3_sendAudio_gated csB 5).1 (by decide)⟩
  · exact ⟨by decide, (claim3_sendAudio_gated csA 0).2.1.mpr (by decide)⟩

/-- The onclose handler never touches the in-flight connect promise. -/
theorem oncloseHandler_promise (s : ClientState) (code : Nat) :
    (oncloseHandler s code).1.promise = s.promise := by
  simp only [oncloseHandler, attemptReconnect]
  split_ifs <;> rfl

/-- C5: `connect()` resolves only upon the relay's distinct `connected` ready
message — socket open leaves the state (hence the pending promise) untouched,
and no other event can move a pending promise to resolved — while a socket
error or a relay `error` message before the ready signal rejects the promise;
on the ready message the attempt counter is reset to 0 and isConnected
becomes true. -/
theorem claim5_ready_resolution (s : ClientState) (e : WsEvent) (msg : String) :
    (wsStep s WsEvent.onopen).1 = s ∧
    (s.promise = PromiseState.pending →
      e ≠ WsEvent.onmessage (some RelayMsg.connected) →
      (wsStep s e).1.promise ≠ PromiseState.resolved) ∧
    (s.promise = PromiseState.pending →
      (wsStep s (WsEvent.onmessage (some RelayMsg.connected))).1.promise =
        PromiseState.resolved ∧
      (wsStep s (WsEvent.onmessage (some RelayMsg.connected))).1.isConnected =
        true ∧
      (wsStep s (WsEvent.onmessage
        (some RelayMsg.connected))).1.reconnectAttempts = 0) ∧
    (s.promise = PromiseState.pending →
      (wsStep s WsEvent.onerror).1.promise = PromiseState.rejected) ∧
    (s.promise = PromiseState.pending →
      (wsStep s (WsEvent.onmessage (some (RelayMsg.errorMsg msg)))).1.promise =
        PromiseState.rejected) := by
  refine ⟨rfl, ?_, ?_, ?_, ?_⟩
  · intro hp hne
    cases e with
    | onopen => simp [wsStep, onopenHandler, hp]
    | onmessage m =>
        cases m with
        | none => simp [wsStep, onmessageHandler, hp]
        | some msgc =>
            cases msgc with
            | connected => exact absurd rfl hne
            | transcriptMsg t f => simp [wsStep, onmessageHandler, hp]
            | speechstarted => simp [wsStep, onmessageHandler, hp]
            | speechended => simp [wsStep, onmessageHandler, hp]
            | errorMsg m => simp [wsStep, onmessageHandler, rejectP, hp]
            | unknown t => simp [wsStep, onmessageHandler, hp]
    | onerror => simp [wsStep, onerrorHandler, rejectP, hp]
    | onclose code =>
        show (oncloseHandler s code).1.promise ≠ PromiseState.resolved
        rw [oncloseHandler_promise, hp]
        decide
  · intro hp
    simp [wsStep, onmessageHandler, resolveP, hp]
  · intro hp
    simp [wsStep, onerrorHandler, rejectP, hp]
  · intro hp
    simp [wsStep, onmessageHandler, rejectP, hp]

/-- A concrete pre-handshake client state: socket open, promise pending. -/
def csPending : ClientState :=
  { ws := some ReadyState.OPEN, isConnected := false, reconnectAttempts := 2,
    promise := PromiseState.pending }

/-- Witness for C5 at concrete inputs: from a pending state, socket open does
not resolve; the `connected` message resolves, connects and resets the
counter; a socket error rejects. -/
theorem claim5_witness :
    (csPending.promise = PromiseState.pending ∧
      WsEvent.onopen ≠ WsEvent.onmessage (some RelayMsg.connected) ∧
      (wsStep csPending WsEvent.onopen).1.promise ≠ PromiseState.resolved) ∧
    ((wsStep csPending (WsEvent.onmessage
        (some RelayMsg.connected))).1.promise = PromiseState.resolved ∧
      (wsStep csPending (WsEvent.onmessage
        (some RelayMsg.connected))).1.reconnectAttempts = 0) ∧
    (wsStep csPending WsEvent.onerror).1.promise = PromiseState.rejected := by
  refine ⟨⟨by decide, by decide, ?_⟩, ⟨?_, ?_⟩, ?_⟩
  · exact (claim5_ready_resolution csPending WsEvent.onopen "").2.1
      (by decide) (by decide)
  · exact ((claim5_ready_resolution csPending WsEvent.onopen "").2.2.1
      (by decide)).1
  · exact ((claim5_ready_resolution csPending WsEvent.onopen "").2.2.1
      (by decide)).2.2
  · exact (claim5_ready_resolution csPending WsEvent.onopen "").2.2.2.1
      (by decide)

/-- C6: a malformed inbound payload (JSON.parse failure, the `none` case) is
caught and skipped, and a message whose type tag is none of
connected/transcript/speechstarted/speechended/error falls to the default
case and is ignored: in both cases the client state is left fully unchanged,
no close is issued, no reconnect is scheduled, and nothing is emitted (the
handler is total, so neither case throws). -/
theorem claim6_malformed_or_unknown_inert (s : ClientState) (tag : String) :
    (onmessageHandler s none).1 = s ∧
    (onmessageHandler s none).2.closeCode = none ∧
    (onmessageHandler s none).2.scheduledReconnect = none ∧
    (onmessageHandler s none).2.emitted = [] ∧
    (onmessageHandler s (some (RelayMsg.unknown tag))).1 = s ∧
    (onmessageHandler s (some (RelayMsg.unknown tag))).2.closeCode = none ∧
    (onmessageHandler s (some (RelayMsg.unknown tag))).2.scheduledReconnect =
      none ∧
    (onmessageHandler s (some (RelayMsg.unknown tag))).2.emitted = [] :=
  ⟨rfl, rfl, rfl, rfl, rfl, rfl, rfl, rfl⟩

/-- The four-message sequence of the aggregation test. -/
def aggSeq : List ServiceEvent :=
  [ServiceEvent.connectedEv,
   ServiceEvent.transcriptEv { transcript := "hel", isFinal := false },
   ServiceEvent.transcriptEv { transcript := "hello", isFinal := false },
   ServiceEvent.transcriptEv { transcript := "hello world", isFinal := true }]

/-- C4: an interim transcript event overwrites the single interim slot (and
the current sentence); a final event whose text trims nonempty clears the
interim slot and appends the trimmed text to the ordered final-transcript
log; and the concrete sequence [connected, interim "hel", interim "hello",
final "hello world"] ends with an empty interim slot and the one-element log
["hello world"]. -/
theorem claim4_transcript_aggregation (s : HookState) (t : String) :
    hookStep s (ServiceEvent.transcriptEv { transcript := t, isFinal := false })
      = { s with interimTranscript := t, currentSentence := t } ∧
    (jsTrim t ≠ "" →
      hookStep s (ServiceEvent.transcriptEv { transcript := t, isFinal := true })
        = { s with transcript := jsTrim t,
                   fullTranscript := s.fullTranscript ++ [jsTrim t],
                   interimTranscript := "",
                   currentSentence := "" }) ∧
    (hookRun initHookState aggSeq).interimTranscript = "" ∧
    (hookRun initHookState aggSeq).fullTranscript = ["hello world"] := by
  refine ⟨rfl, ?_, by decide, by decide⟩
  intro h
  simp [hookStep, handleTranscript, h]

/-- Witness for C4 at a concrete input: "hello world" trims nonempty, so a
final event appends it and clears the interim slot. -/
theorem claim4_witness :
    jsTrim "hello world" ≠ "" ∧
    (hookStep initHookState (ServiceEvent.transcriptEv
        { transcript := "hello world", isFinal := true })).fullTranscript =
      ["hello world"] := by
  refine ⟨by decide, ?_⟩
  rw [(claim4_transcript_aggregation initHookState "hello world").2.1
    (by decide)]
  decide

/-- C10: a final transcript event whose text trims to the empty string leaves
the whole transcript state unchanged — interim slot not cleared, current
sentence not updated, no log entry appended. -/
theorem claim10_empty_final_frame (s : HookState) (t : String) :
    jsTrim t = "" →
    hookStep s (ServiceEvent.transcriptEv { transcript := t, isFinal := true })
      = s := by
  intro h
  simp [hookStep, handleTranscript, h]

/-- A hook state holding a live interim fragment and one logged sentence. -/
def hsA : HookState :=
  { isConnected := true, transcript := "prev", interimTranscript := "part",
    fullTranscript := ["prev"], currentSentence := "part", errorText := none }

/-- Witness for C10 at a concrete input: a final event carrying only blanks
leaves a state with a live interim fragment untouched. -/
theorem claim10_witness :
    jsTrim "   " = "" ∧
    hookStep hsA (ServiceEvent.transcriptEv
      { transcript := "   ", isFinal := true }) = hsA :=
  ⟨by decide, claim10_empty_final_frame hsA "   " (by decide)⟩

/-- The fade branch taken while the decayed level stays above 0.01. -/
theorem fadeOutStep_above (s : AudioState)
    (h : 1 / 100 < s.audioLevel * (9 / 10)) :
    fadeOutStep s = { s with audioLevel := s.audioLevel * (9 / 10) } := by
  simp only [fadeOutStep]
  rw [if_pos h]

/-- The fade branch taken once the decayed level is at or below 0.01. -/
theorem fadeOutStep_snap (s : AudioState)
    (h : s.audioLevel * (9 / 10) ≤ 1 / 100) :
    fadeOutStep s = { s with isRecording := false, audioLevel := 0 } := by
  simp only [fadeOutStep]
  rw [if_neg (not_lt.mpr h)]

/-- Once the fade has snapped (level 0, not recording), further fade
iterations change nothing. -/
theorem fadeIter_fixed : ∀ (k : Nat) (s : AudioState),
    s.audioLevel = 0 → s.isRecording = false → fadeIter k s = s := by
  intro k
  induction k with
  | zero => intro s h0 h1; rfl
  | succ k ih =>
      intro s h0 h1
      have hstep : fadeOutStep s = s := by
        rw [fadeOutStep_snap s (by rw [h0]; norm_num)]
        cases s with
        | mk rec ini lvl err =>
            simp only at h0 h1
            subst h0; subst h1
            rfl
      show fadeIter k (fadeOutStep s) = s
      rw [hstep]
      exact ih s h0 h1

/-- If after discounting by (9/10)^n the level is at or below the 0.01
threshold, then n+1 fade iterations reach the snapped state. -/
theorem fadeIter_snaps : ∀ (n : Nat) (s : AudioState),
    s.audioLevel * (9 / 10) ^ n ≤ 1 / 100 →
    (fadeIter (n + 1) s).audioLevel = 0 ∧
    (fadeIter (n + 1) s).isRecording = false := by
  intro n
  induction n with
  | zero =>
      intro s h
      have h' : s.audioLevel ≤ 1 / 100 := by simpa using h
      have hle : s.audioLevel * (9 / 10) ≤ 1 / 100 := by nlinarith
      show (fadeOutStep s).audioLevel = 0 ∧ (fadeOutStep s).isRecording = false
      rw [fadeOutStep_snap s hle]
      exact ⟨rfl, rfl⟩
  | succ n ih =>
      intro n1 h
      by_cases hc : 1 / 100 < n1.audioLevel * (9 / 10)
      · have hstep := fadeOutStep_above n1 hc
        have hlev : (fadeOutStep n1).audioLevel * (9 / 10) ^ n ≤ 1 / 100 := by
          rw [hstep]
          show n1.audioLevel * (9 / 10) * (9 / 10) ^ n ≤ 1 / 100
          rw [pow_succ] at h
          nlinarith [h]
        exact ih (fadeOutStep n1) hlev
      · have hstep := fadeOutStep_snap n1 (not_lt.mp hc)
        show (fadeIter (n + 1) (fadeOutStep n1)).audioLevel = 0 ∧
          (fadeIter (n + 1) (fadeOutStep n1)).isRecording = false
        rw [hstep, fadeIter_fixed (n + 1) _ rfl rfl]
        exact ⟨rfl, rfl⟩

/-- Every fade run terminates in the snapped state: exactly 0 with
isRecording false. -/
theorem fadeIter_terminates (s : AudioState) :
    ∃ n, (fadeIter n s).audioLevel = 0 ∧ (fadeIter n s).isRecording = false := by
  rcases le_or_lt s.audioLevel (1 / 100) with h | h
  · exact ⟨1, fadeIter_snaps 0 s (by simpa using h)⟩
  · have hl : (0 : ℚ) < s.audioLevel := lt_trans (by norm_num) h
    obtain ⟨n, hn⟩ := exists_pow_lt_of_lt_one
      (div_pos (by norm_num : (0:ℚ) < 1 / 100) hl)
      (by norm_num : (9 / 10 : ℚ) < 1)
    refine ⟨n + 1, fadeIter_snaps n s ?_⟩
    have h2 : s.audioLevel * (9 / 10) ^ n <
        s.audioLevel * (1 / 100 / s.audioLevel) :=
      mul_lt_mul_of_pos_left hn hl
    have h3 : s.audioLevel * (1 / 100 / s.audioLevel) = 1 / 100 := by
      field_simp
      ring
    rw [h3] at h2
    exact le_of_lt h2

/-- C7: one monitoring tick keeps the level in [0,1] (the sample is the
clamped min(rms/128, 1) of a nonnegative rms, and the smoothed update is
level*0.7 + sample*0.3); after stopRecording each fade iteration that stays
above the 0.01 threshold multiplies the level by exactly 0.9, strictly
decreasing it, while the first iteration at or below the threshold snaps the
level to exactly 0 in the same update that sets isRecording false; and every
fade run reaches that snapped state. -/
theorem claim7_audio_level (level rms : ℚ) (s : AudioState) :
    (0 ≤ level → level ≤ 1 → 0 ≤ rms →
      0 ≤ levelTick level rms ∧ levelTick level rms ≤ 1) ∧
    (1 / 100 < s.audioLevel * (9 / 10) →
      (fadeOutStep s).audioLevel = s.audioLevel * (9 / 10) ∧
      (fadeOutStep s).audioLevel < s.audioLevel ∧
      (fadeOutStep s).isRecording = s.isRecording) ∧
    (s.audioLevel * (9 / 10) ≤ 1 / 100 →
      (fadeOutStep s).audioLevel = 0 ∧ (fadeOutStep s).isRecording = false) ∧
    (∃ n, (fadeIter n s).audioLevel = 0 ∧
      (fadeIter n s).isRecording = false) := by
  refine ⟨?_, ?_, ?_, fadeIter_terminates s⟩
  · intro h0 h1 hr
    have hm0 : 0 ≤ normalizedLevel rms :=
      le_min (div_nonneg hr (by norm_num)) (by norm_num)
    have hm1 : normalizedLevel rms ≤ 1 := min_le_right _ _
    unfold levelTick
    constructor <;> nlinarith
  · intro hc
    rw [fadeOutStep_above s hc]
    refine ⟨rfl, ?_, rfl⟩
    show s.audioLevel * (9 / 10) < s.audioLevel
    linarith
  · intro hc
    rw [fadeOutStep_snap s hc]
    exact ⟨rfl, rfl⟩

/-- A mid-fade audio state at level 1/2. -/
def faA : AudioState :=
  { isRecording := true, isInitialized := true, audioLevel := 1 / 2,
    errorText := none }

/-- An audio state at level 1/100, below the post-decay threshold. -/
def faB : AudioState :=
  { isRecording := true, isInitialized := true, audioLevel := 1 / 100,
    errorText := none }

/-- Witness for C7 at concrete inputs: a tick at level 1/2 with rms 256 stays
in [0,1]; a fade iteration at level 1/2 strictly decreases the level; a fade
iteration at level 1/100 snaps to 0 and stops recording. -/
theorem claim7_witness :
    ((0:ℚ) ≤ 1 / 2 ∧ (1 / 2 : ℚ) ≤ 1 ∧ (0:ℚ) ≤ 256 ∧
      0 ≤ levelTick (1 / 2) 256 ∧ levelTick (1 / 2) 256 ≤ 1) ∧
    ((1:ℚ) / 100 < faA.audioLevel * (9 / 10) ∧
      (fadeOutStep faA).audioLevel < faA.audioLevel) ∧
    (faB.audioLevel * (9 / 10) ≤ 1 / 100 ∧
      (fadeOutStep faB).audioLevel = 0 ∧
      (fadeOutStep faB).isRecording = false) := by
  have hA : (1:ℚ) / 100 < faA.audioLevel * (9 / 10) := by
    show (1:ℚ) / 100 < 1 / 2 * (9 / 10)
    norm_num
  have hB : faB.audioLevel * (9 / 10) ≤ 1 / 100 := by
    show (1:ℚ) / 100 * (9 / 10) ≤ 1 / 100
    norm_num
  refine ⟨⟨by norm_num, by norm_num, by norm_num, ?_, ?_⟩,
    ⟨hA, ?_⟩, ⟨hB, ?_, ?_⟩⟩
  · exact ((claim7_audio_level (1 / 2) 256 faA).1
      (by norm_num) (by norm_num) (by norm_num)).1
  · exact ((claim7_audio_level (1 / 2) 256 faA).1
      (by norm_num) (by norm_num) (by norm_num)).2
  · exact ((claim7_audio_level (1 / 2) 256 faA).2.1 hA).2.1
  · exact ((claim7_audio_level (1 / 2) 256 faB).2.2.1 hB).1
  · exact ((claim7_audio_level (1 / 2) 256 faB).2.2.1 hB).2

/-- After `startRecording` the recording flag is always true. -/
theorem startRecording_isRecording (s : CaptureState) :
    (startRecording s).audio.isRecording = true := by
  unfold startRecording
  split_ifs with h h2
  · exact h
  · rfl
  · rfl

/-- After `stopRecording` the recording flag is always false. -/
theorem stopRecording_isRecording (s : CaptureState) :
    (stopRecording s).audio.isRecording = false := by
  unfold stopRecording
  split_ifs with h
  · rfl
  · simpa using h

/-- `startRecording` is a no-op on a state that is already recording. -/
theorem startRecording_noop (s : CaptureState)
    (h : s.audio.isRecording = true) : startRecording s = s := by
  unfold startRecording
  rw [if_pos h]

/-- `stopRecording` is a no-op on a state that is not recording. -/
theorem stopRecording_noop (s : CaptureState)
    (h : s.audio.isRecording = false) : stopRecording s = s := by
  unfold stopRecording
  rw [if_neg (by simp [h])]

/-- Run-level characterisation: the recording flag after a sequence of calls
equals whether the most recent call was `start`. -/
theorem captureRun_isRecording : ∀ (calls : List CaptureCall) (s : CaptureState),
    (captureRun s calls).audio.isRecording =
      lastIsStart s.audio.isRecording calls := by
  intro calls
  induction calls with
  | nil => intro s; rfl
  | cons c cs ih =>
      intro s
      cases c with
      | start =>
          show (captureRun (startRecording s) cs).audio.isRecording =
            lastIsStart true cs
          rw [ih (startRecording s), startRecording_isRecording]
      | stop =>
          show (captureRun (stopRecording s) cs).audio.isRecording =
            lastIsStart false cs
          rw [ih (stopRecording s), stopRecording_isRecording]

/-- Resource invariant of the capture hook: no stream means no allocation
has happened, and at most one allocation ever happens. -/
def capInv (s : CaptureState) : Prop :=
  (s.streamPresent = false → s.allocations = 0) ∧ s.allocations ≤ 1

/-- Both capture calls preserve the resource invariant: `startRecording`
allocates only when no stream is held (and then holds it), `stopRecording`
keeps the stream. -/
theorem captureStep_inv (s : CaptureState) (c : CaptureCall)
    (h : capInv s) : capInv (captureStep s c) := by
  cases c with
  | start =>
      show capInv (startRecording s)
      unfold startRecording
      split_ifs with h1 h2
      · exact h
      · refine ⟨fun hf => ?_, h.2⟩
        exact absurd (show s.streamPresent = false from hf) (by simp [h2])
      · have h0 : s.allocations = 0 := h.1 (by simpa using h2)
        refine ⟨fun hf => ?_, ?_⟩
        · exact absurd (show (true : Bool) = false from hf) (by decide)
        · show s.allocations + 1 ≤ 1
          omega
  | stop =>
      show capInv (stopRecording s)
      unfold stopRecording
      split_ifs with h1
      · exact h
      · exact h

/-- Any run from the initial state keeps the resource invariant. -/
theorem captureRun_inv : ∀ (calls : List CaptureCall) (s : CaptureState),
    capInv s → capInv (captureRun s calls) := by
  intro calls
  induction calls with
  | nil => intro s h; exact h
  | cons c cs ih => intro s h; exact ih (captureStep s c) (captureStep_inv s c h)

/-- C8: `startRecording` and `stopRecording` are idempotent; after any finite
sequence of calls the recording flag is true exactly when the most recent
call was `startRecording` with no later `stopRecording`; and a run from the
initial state never allocates the microphone stream more than once (a second
start while recording is a no-op, a second stop while idle is a no-op). -/
theorem claim8_toggle_idempotent (s : CaptureState) (calls : List CaptureCall) :
    startRecording (startRecording s) = startRecording s ∧
    stopRecording (stopRecording s) = stopRecording s ∧
    (captureRun s calls).audio.isRecording =
      lastIsStart s.audio.isRecording calls ∧
    (captureRun initCaptureState calls).allocations ≤ 1 :=
  ⟨startRecording_noop _ (startRecording_isRecording s),
   stopRecording_noop _ (stopRecording_isRecording s),
   captureRun_isRecording calls s,
   (captureRun_inv calls initCaptureState ⟨fun _ => rfl, by decide⟩).2⟩

/-- A not-yet-connected, not-recording AudioPulse state. -/
def psIdle : PulseState :=
  { connectionStatus := ConnStatus.idle, isRecording := false,
    streamingStarted := false }

/-- An already-connected, not-recording AudioPulse state. -/
def psConn : PulseState :=
  { connectionStatus := ConnStatus.connected, isRecording := false,
    streamingStarted := false }

/-- C9: toggling recording on while the relay is not connected first runs the
connect step; if it fails the status becomes error and neither capture nor
streaming is started (the action trace is just the connect attempt); if it
succeeds the action trace is connect, then start capture, then wire the
streaming callback — capture and wiring strictly after the resolved connect;
when already connected the connect step is skipped. -/
theorem claim9_connect_before_capture (s : PulseState) (ok : Bool) :
    (s.isRecording = false → s.connectionStatus ≠ ConnStatus.connected →
      (handleToggleRecording s false).1.connectionStatus = ConnStatus.errorS ∧
      (handleToggleRecording s false).1.isRecording = false ∧
      (handleToggleRecording s false).1.streamingStarted = s.streamingStarted ∧
      (handleToggleRecording s false).2 = [PulseAction.actConnect]) ∧
    (s.isRecording = false → s.connectionStatus ≠ ConnStatus.connected →
      (handleToggleRecording s true).2 =
        [PulseAction.actConnect, PulseAction.actStartRecording,
         PulseAction.actStartStreaming] ∧
      (handleToggleRecording s true).1.connectionStatus = ConnStatus.connected ∧
      (handleToggleRecording s true).1.isRecording = true ∧
      (handleToggleRecording s true).1.streamingStarted = true) ∧
    (s.isRecording = false → s.connectionStatus = ConnStatus.connected →
      (handleToggleRecording s ok).2 =
        [PulseAction.actStartRecording, PulseAction.actStartStreaming]) := by
  refine ⟨?_, ?_, ?_⟩
  · intro h1 h2
    simp [handleToggleRecording, initDeepgram, h1, h2]
  · intro h1 h2
    simp [handleToggleRecording, initDeepgram, h1, h2]
  · intro h1 h2
    simp [handleToggleRecording, h1, h2]

/-- Witness for C9 at concrete inputs: from the idle state a failing connect
produces only the connect attempt and the error status; a succeeding connect
produces the ordered trace connect, start capture, start streaming; from the
connected state the trace has no connect step. -/
theorem claim9_witness :
    (psIdle.isRecording = false ∧ psIdle.connectionStatus ≠ ConnStatus.connected ∧
      (handleToggleRecording psIdle false).1.connectionStatus =
        ConnStatus.errorS ∧
      (handleToggleRecording psIdle false).2 = [PulseAction.actConnect]) ∧
    (handleToggleRecording psIdle true).2 =
      [PulseAction.actConnect, PulseAction.actStartRecording,
       PulseAction.actStartStreaming] ∧
    (psConn.connectionStatus = ConnStatus.connected ∧
      (handleToggleRecording psConn true).2 =
        [PulseAction.actStartRecording, PulseAction.actStartStreaming]) := by
  refine ⟨⟨by decide, by decide, ?_, ?_⟩, ?_, by decide, ?_⟩
  · exact ((claim9_connect_before_capture psIdle true).1
      (by decide) (by decide)).1
  · exact ((claim9_connect_before_capture psIdle true).1
      (by decide) (by decide)).2.2.2
  · exact ((claim9_connect_before_capture psIdle true).2.1
      (by decide) (by decide)).1
  · exact (claim9_connect_before_capture psConn true).2.2
      (by decide) (by decide)
